import Mathlib

/-!
Shallow embedding of the dispatch core of the `solana_analytics` repository:
the retry loop (`src/rpc/client.rs`), the error taxonomy (`src/rpc/error.rs`),
the index-keyed health monitor (`src/rpc/health.rs`), the URL-keyed health
monitor (`src/core/health.rs`), and the rate-limiter constructor
(`src/rpc/rate_limit.rs`).

Modelling conventions:
* `Instant` timestamps and `Duration`s are `Nat` milliseconds; the ambient
  clock is passed explicitly as a `now : Nat` argument.
* `f64` fields (`avg_response_time_ms`, health scores) are modelled as `Rat`;
  all arithmetic the claims touch is exact division, so the `Rat` semantics
  coincides with the IEEE semantics at the concrete inputs used below.
* Rust `Result<T, RpcError>` becomes `Except RpcErr T`; in-place `&mut`
  updates become state-passing functions returning the new state.
* Metric/tracing side effects (`counter!`, `histogram!`, `tracing`) and lock
  acquisition are elided: they do not affect any value the claims mention.
-/

namespace SolanaAnalytics

/-- Error enum of `src/rpc/error.rs` (`RpcError`), with the extra
`RetryFailed { attempts, error }` variant that `src/rpc/client.rs` returns
from `with_retry`.  The `ClientError` payload of `RequestFailed` is abstracted
to its display string. -/
inductive RpcErr where
  | invalidConfig (msg : String)
  | noEnabledEndpoints
  | invalidEndpoint (idx : Nat)
  | requestFailed (msg : String)
  | rateLimitExceeded
  | timeout
  | retryLimitExceeded
  | healthCheckFailed
  | internal (msg : String)
  | connectionError (msg : String)
  | circuitBreakerOpen (msg : String)
  | allEndpointsFailed (msg : String)
  | retryFailed (attempts : Nat) (error : RpcErr)
  deriving Repr, DecidableEq

namespace RpcErr

/-- Transcription of `RpcError::is_retryable` (src/rpc/error.rs lines 44-52):
`matches!(self, RequestFailed(_) | RateLimitExceeded | Timeout |
ConnectionError(_))`. -/
def is_retryable : RpcErr → Bool
  | .requestFailed _ => true
  | .rateLimitExceeded => true
  | .timeout => true
  | .connectionError _ => true
  | _ => false

/-- Transcription of `RpcError::with_context` (src/rpc/error.rs lines 58-64). -/
def with_context (e : RpcErr) (context : String) : RpcErr :=
  match e with
  | .requestFailed msg => .internal (context ++ ": " ++ msg)
  | .internal msg => .internal (context ++ ": " ++ msg)
  | _ => e

end RpcErr

/-- Abstraction of `reqwest::Error` as the two predicates the repository
inspects (`is_timeout`, `is_connect`) plus a display string.  An HTTP
non-2xx status error produced by `Response::error_for_status` has both
predicates false. -/
structure ReqwestErr where
  is_timeout : Bool
  is_connect : Bool
  msg : String
  deriving Repr, DecidableEq

/-- Transcription of `impl From<reqwest::Error> for RpcError`
(src/rpc/error.rs lines 85-95): timeouts map to `Timeout`, connect failures
to `ConnectionError`, and everything else — including every HTTP status
error, 4xx or 5xx — to `RequestFailed` (via `ClientError::from`). -/
def rpcErrFromReqwest (e : ReqwestErr) : RpcErr :=
  if e.is_timeout then .timeout
  else if e.is_connect then .connectionError e.msg
  else .requestFailed e.msg

/-- Outcome of one run of `SolanaRpcClient::with_retry`: the returned
`Result`, the number of times the operation closure `f` was invoked, and
the chronological list of backoff sleeps (milliseconds) performed. -/
structure RetryOutcome (T : Type) where
  result : Except RpcErr T
  invocations : Nat
  sleeps : List Nat
  deriving Repr

/-- Loop body of `SolanaRpcClient::with_retry` (src/rpc/client.rs lines
103-160), written as structural recursion on `remaining = max_attempts -
attempts` (the `while attempts < max_attempts` condition is `remaining > 0`).

Inputs replacing the effectful environment:
* `script k` is the `Result` produced by the `k`-th invocation of the
  closure `f` (the closure is re-run each iteration; `attempts` counts one
  per prior iteration, so invocation `k` happens when `attempts = k`);
* `cbOpen k` is the value of `health_monitor.is_circuit_breaker_open()`
  observed at the iteration where `attempts = k` (the method is called on
  the monitor but is not defined in the sources; it is kept abstract);
* `rate_limiter.wait_for_permit()` always returns `Ok(())`
  (src/rpc/rate_limit.rs lines 45-48) and is elided;
* `record_success` / `record_failure` calls are elided (they do not feed
  back into the loop).

On a retryable error the code does `attempts += 1` and then sleeps
`retry_delay_ms * 2u64.pow(attempts)` (u64 arithmetic, hence `% 2^64`). -/
def withRetryGo (T : Type) (operation : String) (script : Nat → Except RpcErr T)
    (cbOpen : Nat → Bool) (retryDelayMs : Nat) :
    Nat → Nat → Option RpcErr → RetryOutcome T
  | 0, attempts, lastError =>
    ⟨.error (.retryFailed attempts
        ((lastError.getD (.internal "Unknown error")).with_context
          (operation ++ " failed after " ++ toString attempts ++ " attempts"))),
      attempts, []⟩
  | remaining + 1, attempts, lastError =>
    if cbOpen attempts then
      ⟨.error (.circuitBreakerOpen
          ("Circuit breaker open after " ++ toString attempts ++ " attempts")),
        attempts, []⟩
    else
      match script attempts with
      | .ok r => ⟨.ok r, attempts + 1, []⟩
      | .error e =>
        if e.is_retryable then
          let rest := withRetryGo T operation script cbOpen retryDelayMs
              remaining (attempts + 1) (some e)
          ⟨rest.result, rest.invocations,
            (retryDelayMs * 2 ^ (attempts + 1)) % 2 ^ 64 :: rest.sleeps⟩
        else
          ⟨.error (e.with_context (operation ++ " failed")), attempts + 1, []⟩

/-- Entry point of `with_retry`: `attempts = 0`, `last_error = None`,
`max_attempts = config.retry_attempts`. -/
def withRetry (T : Type) (operation : String) (script : Nat → Except RpcErr T)
    (cbOpen : Nat → Bool) (retryDelayMs maxAttempts : Nat) : RetryOutcome T :=
  withRetryGo T operation script cbOpen retryDelayMs maxAttempts 0 none

/-- Endpoints targeted by the transport invocations of one `with_retry` run.
The closure `f` passed to `with_retry` (e.g. in `get_block`,
src/rpc/client.rs lines 162-169) captures `self.client`, the single current
`RpcClient`; `with_retry` never calls `update_client` or
`switch_endpoint`, so every invocation hits the same endpoint. -/
def withRetryEndpoints (T : Type) (operation : String)
    (script : Nat → Except RpcErr T) (cbOpen : Nat → Bool)
    (retryDelayMs maxAttempts : Nat) (endpoint : Nat) : List Nat :=
  List.replicate
    (withRetry T operation script cbOpen retryDelayMs maxAttempts).invocations
    endpoint

/-- Per-endpoint statistics of `src/rpc/health.rs` (`EndpointStats`).
Timestamps are `Option Nat` milliseconds; `f64` averages are `Rat`. -/
structure EndpointStats where
  successful_requests : Nat
  failed_requests : Nat
  avg_response_time_ms : Rat
  current_rps : Rat
  total_bytes_transferred : Nat
  last_success : Option Nat
  last_failure : Option Nat
  deriving Repr, DecidableEq

/-- Transcription of `impl Default for EndpointStats`
(src/rpc/health.rs lines 28-40). -/
def EndpointStats.default : EndpointStats :=
  ⟨0, 0, 0, 0, 0, none, none⟩

/-- Freshness test used by `HealthMonitor::check_health`
(src/rpc/health.rs lines 73-75 and 86-88):
`last_success.map(|last| now.duration_since(last) < 30 s).unwrap_or(false)`.
Note the absence of any grace period for endpoints with no attempts:
`None` maps to `false`. -/
def statsFresh (now : Nat) (s : EndpointStats) : Bool :=
  match s.last_success with
  | some last => decide (now - last < 30000)
  | none => false

/-- Fallback scan of `check_health` (src/rpc/health.rs lines 85-97):
`for (idx, stats) in stats.iter().enumerate()`, returning the first index
whose stats pass the freshness test.  `i` is the index of the head of the
remaining list. -/
def findFreshIdxGo (now : Nat) : Nat → List EndpointStats → Option Nat
  | _, [] => none
  | i, s :: rest =>
    if statsFresh now s then some i else findFreshIdxGo now (i + 1) rest

/-- Transcription of `HealthMonitor::check_health`
(src/rpc/health.rs lines 65-104), with the monitor state
`(stats, current_endpoint)` passed explicitly and the `HealthStatus`
struct reduced to its `is_healthy` flag (the `last_check` wall-clock and
message fields carry no claim-relevant data).  Returns the reported flag
and the possibly switched `current_endpoint`. -/
def checkHealth (now : Nat) (stats : List EndpointStats) (currentIdx : Nat) :
    Bool × Nat :=
  if statsFresh now (stats.getD currentIdx EndpointStats.default) then
    (true, currentIdx)
  else
    match findFreshIdxGo now 0 stats with
    | some idx => (true, idx)
    | none => (false, currentIdx)

/-- Transcription of `HealthMonitor::record_success`
(src/rpc/health.rs lines 112-128).  The in-place mutation under the write
lock becomes a returned pair (result, new stats vector): the early
out-of-range return leaves the vector untouched.  `total_requests` is
computed after `successful_requests += 1`, and the average is divided by
`successful_requests + failed_requests`, failures included. -/
def recordSuccess (stats : List EndpointStats) (endpointIdx : Nat)
    (responseTimeMs bytesTransferred now : Nat) :
    Except RpcErr Unit × List EndpointStats :=
  if endpointIdx ≥ stats.length then
    (.error (.invalidEndpoint endpointIdx), stats)
  else
    let s0 := stats.getD endpointIdx EndpointStats.default
    let s1 := { s0 with
      successful_requests := s0.successful_requests + 1
      total_bytes_transferred := s0.total_bytes_transferred + bytesTransferred
      last_success := some now }
    let totalRequests := s1.successful_requests + s1.failed_requests
    let s2 := { s1 with
      avg_response_time_ms :=
        (s1.avg_response_time_ms * ((totalRequests - 1 : Nat) : Rat)
          + (responseTimeMs : Rat)) / (totalRequests : Rat) }
    (.ok (), stats.set endpointIdx s2)

/-- Transcription of `HealthMonitor::record_failure`
(src/rpc/health.rs lines 131-142). -/
def recordFailure (stats : List EndpointStats) (endpointIdx : Nat)
    (now : Nat) : Except RpcErr Unit × List EndpointStats :=
  if endpointIdx ≥ stats.length then
    (.error (.invalidEndpoint endpointIdx), stats)
  else
    let s0 := stats.getD endpointIdx EndpointStats.default
    let s1 := { s0 with
      failed_requests := s0.failed_requests + 1
      last_failure := some now }
    (.ok (), stats.set endpointIdx s1)

/-- Transcription of `HealthMonitor::new` (src/rpc/health.rs lines 55-62):
one default stats record per configured endpoint, `current_endpoint = 0`. -/
def healthMonitorNew (numEndpoints : Nat) : List EndpointStats × Nat :=
  (List.replicate numEndpoints EndpointStats.default, 0)

/-- Rate-limit configuration of `src/rpc/config.rs` (`RateLimitConfig`);
both fields are `u32` in the source, well inside `Nat`. -/
structure RateLimitConfig where
  max_rps : Nat
  burst_size : Nat
  deriving Repr, DecidableEq

/-- Constructed rate limiter of `src/rpc/rate_limit.rs`: the `governor`
internals are abstracted to the two fields the repository stores and
reports back (`max_rps`, `burst_size`). -/
structure RateLimiterR where
  max_rps : Nat
  burst_size : Nat
  deriving Repr, DecidableEq

/-- Transcription of `governor::Quota::with_period` as used here: `None`
exactly when the period is zero.  The call site passes a constant one
second (1 000 000 000 ns). -/
def quotaWithPeriod (nanos : Nat) : Option Nat :=
  if nanos = 0 then none else some nanos

/-- Transcription of `RateLimiter::new` (src/rpc/rate_limit.rs lines 23-42):
`NonZeroU32::new` on `max_rps` then on `burst_size` (erroring with
`InvalidConfig` on zero), then `Quota::with_period(1 s)` (never `None`),
then the limiter is built storing the configured numbers. -/
def rateLimiterNew (config : RateLimitConfig) : Except RpcErr RateLimiterR :=
  if config.max_rps = 0 then
    .error (.invalidConfig "max_rps must be greater than 0")
  else if config.burst_size = 0 then
    .error (.invalidConfig "burst_size must be greater than 0")
  else
    match quotaWithPeriod 1000000000 with
    | none => .error (.invalidConfig "Invalid rate limit period")
    | some _ => .ok ⟨config.max_rps, config.burst_size⟩

/-- Per-endpoint health record of `src/core/health.rs` (`EndpointHealth`).
`url` is the normalized URL string; `response_time` is the most recent
successful response time in milliseconds (the struct has no running
average). -/
structure EndpointHealth where
  url : String
  response_time : Nat
  error_count : Nat
  success_count : Nat
  last_error : Option String
  last_success : Option Nat
  is_healthy : Bool
  deriving Repr, DecidableEq

namespace EndpointHealth

/-- Transcription of `EndpointHealth::new` (src/core/health.rs lines 21-31). -/
def new (url : String) : EndpointHealth :=
  ⟨url, 0, 0, 0, none, none, true⟩

/-- Transcription of `EndpointHealth::record_success`
(src/core/health.rs lines 33-42); `Instant::now()` becomes the explicit
`now`, the metric macros are elided.  Note `response_time` is overwritten,
not averaged. -/
def record_success (e : EndpointHealth) (responseTime now : Nat) :
    EndpointHealth :=
  { e with
    success_count := e.success_count + 1
    response_time := responseTime
    last_success := some now
    is_healthy := true }

/-- Transcription of `EndpointHealth::record_error`
(src/core/health.rs lines 44-51). -/
def record_error (e : EndpointHealth) (error : String) : EndpointHealth :=
  { e with
    error_count := e.error_count + 1
    last_error := some error
    is_healthy := false }

/-- Transcription of `EndpointHealth::health_score`
(src/core/health.rs lines 53-76).  `last_success.elapsed()` becomes
`now - t`; the degradation threshold in the source is
`Duration::from_secs(60)` with a strict comparison. -/
def health_score (e : EndpointHealth) (now : Nat) : Rat :=
  let total := e.success_count + e.error_count
  if total = 0 then 1
  else
    let success_rate : Rat := (e.success_count : Rat) / (total : Rat)
    let avg_response_time : Rat := (e.response_time : Rat)
    let time_factor : Rat :=
      match e.last_success with
      | some t => if now - t > 60000 then 1/2 else 1
      | none => 1/2
    success_rate * (1000 / (avg_response_time + 1)) * time_factor

/-- Transcription of `EndpointHealth::should_retry`
(src/core/health.rs lines 78-81): healthy, or fewer than 3 errors. -/
def should_retry (e : EndpointHealth) : Bool :=
  e.is_healthy || decide (e.error_count < 3)

end EndpointHealth

/-- Helper mirroring `iter_mut().find(predicate)` followed by an in-place
update: the first matching element is replaced, the rest are untouched,
and a list with no match is returned unchanged. -/
def updateFirst (p : EndpointHealth → Bool)
    (f : EndpointHealth → EndpointHealth) :
    List EndpointHealth → List EndpointHealth
  | [] => []
  | x :: xs => if p x then f x :: xs else x :: updateFirst p f xs

/-- Transcription of the URL-keyed `HealthMonitor::record_success`
(src/core/health.rs lines 101-106): update the first endpoint whose URL
matches, silently do nothing when none does.  The function is total and
returns no error. -/
def recordSuccessByUrl (endpoints : List EndpointHealth) (url : String)
    (responseTime now : Nat) : List EndpointHealth :=
  updateFirst (fun e => e.url = url)
    (fun e => e.record_success responseTime now) endpoints

/-- Transcription of the URL-keyed `HealthMonitor::record_error`
(src/core/health.rs lines 108-113). -/
def recordErrorByUrl (endpoints : List EndpointHealth) (url : String)
    (error : String) : List EndpointHealth :=
  updateFirst (fun e => e.url = url) (fun e => e.record_error error) endpoints

/-- Step function of Rust `Iterator::max_by` as specialised at
src/core/health.rs line 120: `cmp::max_by(acc, y, compare)` keeps `acc`
only when `compare(y, acc) == Less`, so among equal scores the later
element wins. -/
def maxByScoreStep (now : Nat) (acc y : EndpointHealth) : EndpointHealth :=
  if y.health_score now < acc.health_score now then acc else y

/-- Transcription of `HealthMonitor::get_healthiest_endpoint`
(src/core/health.rs lines 115-122): filter by `should_retry` (not by
`is_healthy`), take the maximum by `health_score` (last maximal element,
per `max_by`), return its URL.  `partial_cmp(..).unwrap()` never panics in
the model because `Rat` is totally ordered. -/
def getHealthiestEndpoint (now : Nat) (endpoints : List EndpointHealth) :
    Option String :=
  match endpoints.filter EndpointHealth.should_retry with
  | [] => none
  | x :: xs => some ((xs.foldl (maxByScoreStep now) x).url)

/-- Transcription of the URL-keyed `HealthMonitor::new`
(src/core/health.rs lines 90-99). -/
def healthMonitorNewUrls (urls : List String) : List EndpointHealth :=
  urls.map EndpointHealth.new

/-- Health-score formula as the specification words it (spec §3), with the
freshness window `W` (milliseconds) left as a parameter:
`success_rate × (1000 / (avg_response_ms + 1)) × staleness_factor` where
`staleness_factor = 0.5` if `last_success` is older than `W` or absent,
else `1.0`, and endpoints with no attempts score `1.0`.  The latency field
is `EndpointHealth.response_time`, the only latency the record stores.
This definition is written from the spec for comparison with the source
transcription `EndpointHealth.health_score`; it is not source code. -/
def claimedHealthScoreW (W : Nat) (e : EndpointHealth) (now : Nat) : Rat :=
  let total := e.success_count + e.error_count
  if total = 0 then 1
  else
    let success_rate : Rat := (e.success_count : Rat) / (total : Rat)
    let staleness_factor : Rat :=
      match e.last_success with
      | some t => if now - t > W then 1/2 else 1
      | none => 1/2
    success_rate * (1000 / ((e.response_time : Rat) + 1)) * staleness_factor

/-! Theorems. -/

/-- Invocation counter of the retry loop: starting from `attempts` prior
invocations with `remaining` loop iterations allowed, at most `remaining`
further invocations of the operation closure happen. -/
theorem withRetryGo_invocations_le (T : Type) (operation : String)
    (script : Nat → Except RpcErr T) (cbOpen : Nat → Bool)
    (retryDelayMs : Nat) :
    ∀ (remaining attempts : Nat) (lastError : Option RpcErr),
      (withRetryGo T operation script cbOpen retryDelayMs
        remaining attempts lastError).invocations ≤ attempts + remaining := by
  intro remaining
  induction remaining with
  | zero =>
    intro attempts lastError
    simp [withRetryGo]
  | succ r ih =>
    intro attempts lastError
    simp only [withRetryGo]
    split
    · simp
    · split
      · simp
      · rename_i x er heq
        by_cases hr : er.is_retryable
        · have h := ih (attempts + 1) (some er)
          simp only [hr, if_true]
          omega
        · simp [hr]

/-- C1 (amended): every run of `with_retry` invokes the operation closure —
and hence the Transport — at most `max_attempts = retry_attempts` times,
and with `retry_attempts = 1` and the circuit breaker closed it performs
exactly one invocation, hence no retry.  (The repetition-free-endpoints
part of the original claim is refuted separately: all invocations of one
call go to the same endpoint.) -/
theorem withRetry_invocation_bound_same_endpoint (T : Type)
    (operation : String) (script : Nat → Except RpcErr T)
    (cbOpen : Nat → Bool) (retryDelayMs maxAttempts : Nat)
    (hcb : cbOpen 0 = false) :
    (withRetry T operation script cbOpen retryDelayMs
        maxAttempts).invocations ≤ maxAttempts
    ∧ (withRetry T operation script cbOpen retryDelayMs 1).invocations = 1 := by
  constructor
  · simpa using
      withRetryGo_invocations_le T operation script cbOpen retryDelayMs
        maxAttempts 0 none
  · simp only [withRetry, withRetryGo, hcb]
    cases hs : script 0 with
    | ok v => simp
    | error e =>
      by_cases hr : e.is_retryable
      · simp [hr, withRetryGo]
      · simp [hr]

/-- Witness for `withRetry_invocation_bound_same_endpoint` at a concrete
run: constant timeout errors, circuit breaker closed, budget 2. -/
theorem withRetry_invocation_bound_witness :
    (withRetry Unit "get_block" (fun _ => .error .timeout) (fun _ => false)
        100 2).invocations ≤ 2
    ∧ (withRetry Unit "get_block" (fun _ => .error .timeout)
        (fun _ => false) 100 1).invocations = 1 :=
  withRetry_invocation_bound_same_endpoint Unit "get_block"
    (fun _ => .error .timeout) (fun _ => false) 100 2 rfl

/-- C1 counterexample: a call with `retry_attempts = 2` whose two
invocations both hit endpoint 0 — the list of endpoints used within the
single call repeats an endpoint, refuting "the set of endpoints used
within that one call is without repetition". -/
theorem withRetry_endpoint_repetition_cex :
    withRetryEndpoints Unit "get_block" (fun _ => .error .timeout)
        (fun _ => false) 100 2 0 = [0, 0]
    ∧ ¬ ([0, 0] : List Nat).Nodup := by
  constructor
  · rfl
  · decide

/-- Fallback-scan helper: a `none` result means no endpoint in the list
passes the freshness test. -/
theorem findFreshIdxGo_none_iff (now : Nat) :
    ∀ (l : List EndpointStats) (i : Nat),
      findFreshIdxGo now i l = none ↔ ∀ s ∈ l, statsFresh now s = false := by
  intro l
  induction l with
  | nil => intro i; simp [findFreshIdxGo]
  | cons s rest ih =>
    intro i
    by_cases hf : statsFresh now s
    · simp [findFreshIdxGo, hf]
    · simp only [findFreshIdxGo]
      rw [if_neg hf]
      simp only [List.mem_cons]
      rw [ih (i + 1)]
      constructor
      · intro h s' hs'
        rcases hs' with h1 | h2
        · simpa [h1] using hf
        · exact h s' h2
      · intro h s' hs'
        exact h s' (Or.inr hs')

/-- Fallback-scan helper: a `some` result exhibits a fresh endpoint. -/
theorem findFreshIdxGo_some_fresh (now : Nat) :
    ∀ (l : List EndpointStats) (i j : Nat),
      findFreshIdxGo now i l = some j →
        ∃ s ∈ l, statsFresh now s = true := by
  intro l
  induction l with
  | nil => intro i j h; simp [findFreshIdxGo] at h
  | cons s rest ih =>
    intro i j h
    by_cases hf : statsFresh now s
    · exact ⟨s, List.mem_cons_self s rest, hf⟩
    · rw [findFreshIdxGo, if_neg hf] at h
      obtain ⟨s', hs', hfr⟩ := ih (i + 1) j h
      exact ⟨s', List.mem_cons_of_mem s hs', hfr⟩

/-- C2 (amended): `check_health` reports healthy exactly when some endpoint
has a `last_success` within the 30-second window; there is no grace period
for endpoints with no recorded attempts (`last_success = None` counts as
stale), so a freshly constructed monitor reports unhealthy. -/
theorem checkHealth_fresh_iff (now : Nat) (stats : List EndpointStats)
    (currentIdx : Nat) (h : currentIdx < stats.length) :
    (checkHealth now stats currentIdx).1 = true
      ↔ ∃ s ∈ stats, statsFresh now s = true := by
  unfold checkHealth
  by_cases hc : statsFresh now (stats.getD currentIdx EndpointStats.default)
  · simp only [hc, if_true]
    constructor
    · intro _
      refine ⟨stats.getD currentIdx EndpointStats.default, ?_, hc⟩
      rw [List.getD_eq_getElem stats EndpointStats.default h]
      exact List.getElem_mem h
    · intro _; trivial
  · simp only [hc, if_false]
    cases hfind : findFreshIdxGo now 0 stats with
    | some idx =>
      simp only [hfind]
      constructor
      · intro _
        exact findFreshIdxGo_some_fresh now stats 0 idx hfind
      · intro _; trivial
    | none =>
      simp only [hfind]
      constructor
      · intro hfalse
        simp at hfalse
      · rintro ⟨s, hs, hfr⟩
        have := (findFreshIdxGo_none_iff now stats 0).mp hfind s hs
        rw [this] at hfr
        cases hfr

/-- Witness for `checkHealth_fresh_iff`: one endpoint whose last success
is 1 ms old is reported healthy. -/
theorem checkHealth_fresh_iff_witness :
    (checkHealth 6 [{ EndpointStats.default with last_success := some 5 }]
        0).1 = true :=
  (checkHealth_fresh_iff 6
      [{ EndpointStats.default with last_success := some 5 }] 0
      (by decide)).mpr
    ⟨{ EndpointStats.default with last_success := some 5 },
      List.mem_singleton.mpr rfl, by decide⟩

/-- C2 counterexample: a freshly constructed monitor (single endpoint,
zero recorded attempts) reports unhealthy, refuting the claimed grace
period for endpoints with no attempts. -/
theorem checkHealth_grace_period_cex :
    (checkHealth 0 [EndpointStats.default] 0).1 = false
    ∧ EndpointStats.default.successful_requests = 0
    ∧ EndpointStats.default.failed_requests = 0 := by
  refine ⟨?_, rfl, rfl⟩
  rfl

/-- Run of the retry loop on a constantly failing, retryable script with
the circuit breaker closed: it consumes the whole remaining budget,
invoking the closure once per iteration and sleeping
`retry_delay_ms * 2^a` after the `a`-th recorded failure, and ends in
`RetryFailed` wrapping the last error with context. -/
theorem withRetryGo_const_retryable (T : Type) (operation : String)
    (retryDelayMs : Nat) (e : RpcErr) (he : e.is_retryable = true) :
    ∀ (remaining attempts : Nat),
      withRetryGo T operation (fun _ => .error e) (fun _ => false)
          retryDelayMs remaining attempts (some e)
        = ⟨.error (.retryFailed (attempts + remaining)
              (e.with_context (operation ++ " failed after "
                ++ toString (attempts + remaining) ++ " attempts"))),
            attempts + remaining,
            (List.range remaining).map
              (fun k => (retryDelayMs * 2 ^ (attempts + 1 + k)) % 2 ^ 64)⟩ := by
  intro remaining
  induction remaining with
  | zero =>
    intro attempts
    simp [withRetryGo]
  | succ r ih =>
    intro attempts
    have hn : attempts + 1 + r = attempts + (r + 1) := by omega
    simp only [withRetryGo, Bool.false_eq_true, if_false, he, if_true]
    rw [ih (attempts + 1)]
    rw [List.range_succ_eq_map, List.map_cons, List.map_map]
    simp only [hn]
    congr 1
    congr 1
    refine List.map_congr_left ?_
    intro k _
    simp only [Function.comp_apply]
    congr 3
    omega

/-- C3 (amended): the retry loop returns a non-retryable error (with
context) on its first occurrence, performing no further attempt and no
backoff sleep; but the non-retryable set is the complement of
`{RequestFailed, RateLimitExceeded, Timeout, ConnectionError}`, and every
HTTP status error — 4xx included — maps to `RequestFailed` and is
therefore retryable.  Retryable errors are surfaced only when the budget
is exhausted, wrapped as `RetryFailed` with the last error attached. -/
theorem rpcError_propagation_policy (T : Type) (operation : String)
    (script : Nat → Except RpcErr T) (cbOpen : Nat → Bool)
    (retryDelayMs maxAttempts : Nat) (e : RpcErr) :
    (e.is_retryable = true
      ↔ ((∃ s, e = .requestFailed s) ∨ e = .rateLimitExceeded
          ∨ e = .timeout ∨ ∃ s, e = .connectionError s))
    ∧ (∀ r : ReqwestErr, r.is_timeout = false → r.is_connect = false →
        (rpcErrFromReqwest r).is_retryable = true)
    ∧ (1 ≤ maxAttempts → cbOpen 0 = false → script 0 = .error e →
        e.is_retryable = false →
        withRetry T operation script cbOpen retryDelayMs maxAttempts
          = ⟨.error (e.with_context (operation ++ " failed")), 1, []⟩)
    ∧ (1 ≤ maxAttempts → e.is_retryable = true →
        (withRetry T operation (fun _ => .error e) (fun _ => false)
            retryDelayMs maxAttempts).result
          = .error (.retryFailed maxAttempts
              (e.with_context (operation ++ " failed after "
                ++ toString maxAttempts ++ " attempts")))) := by
  refine ⟨?_, ?_, ?_, ?_⟩
  · cases e <;> simp [RpcErr.is_retryable]
  · intro r ht hc
    simp [rpcErrFromReqwest, ht, hc, RpcErr.is_retryable]
  · intro hm hcb hs hr
    obtain ⟨m, rfl⟩ : ∃ m, maxAttempts = m + 1 :=
      ⟨maxAttempts - 1, by omega⟩
    simp [withRetry, withRetryGo, hcb, hs, hr]
  · intro hm he
    obtain ⟨m, rfl⟩ : ∃ m, maxAttempts = m + 1 :=
      ⟨maxAttempts - 1, by omega⟩
    simp only [withRetry, withRetryGo, Bool.false_eq_true, if_false, he,
      if_true]
    rw [withRetryGo_const_retryable T operation retryDelayMs e he m 1]
    simp [Nat.add_comm 1 m]

/-- Witness for `rpcError_propagation_policy`: an `InvalidConfig` error is
returned unchanged after exactly one invocation, with no sleep, even with
a budget of 3. -/
theorem rpcError_propagation_policy_witness :
    withRetry Unit "get_block" (fun _ => .error (.invalidConfig "bad"))
        (fun _ => false) 100 3
      = ⟨.error (.invalidConfig "bad"), 1, []⟩ :=
  (rpcError_propagation_policy Unit "get_block"
      (fun _ => .error (.invalidConfig "bad")) (fun _ => false) 100 3
      (.invalidConfig "bad")).2.2.1 (by omega) rfl rfl rfl

/-- C3 counterexample: an HTTP 400 response (a 4xx other than 429) arrives
as a `reqwest` error with neither the timeout nor the connect flag, hence
is converted to `RequestFailed`, which `is_retryable` accepts — so the
dispatcher retries it (2 invocations with budget 2) instead of returning
it on first occurrence as the claim requires. -/
theorem http4xx_retried_cex :
    rpcErrFromReqwest ⟨false, false, "HTTP error: 400 Bad Request"⟩
        = .requestFailed "HTTP error: 400 Bad Request"
    ∧ (RpcErr.requestFailed "HTTP error: 400 Bad Request").is_retryable
        = true
    ∧ (withRetry Unit "get_block"
        (fun _ => .error (.requestFailed "HTTP error: 400 Bad Request"))
        (fun _ => false) 100 2).invocations = 2 :=
  ⟨rfl, rfl, rfl⟩

/-- C6 (amended): on a run whose attempts all fail with a retryable error,
the backoff sleep performed after the `(k+1)`-th failed attempt is exactly
`retry_delay_ms * 2^(k+1)` milliseconds (u64 arithmetic) — there is no
`max_delay` cap and no jitter term, so the delay grows without bound in
the attempt number. -/
theorem withRetry_backoff_sleeps (T : Type) (operation : String)
    (retryDelayMs maxAttempts : Nat) (e : RpcErr)
    (he : e.is_retryable = true) (hm : 1 ≤ maxAttempts) :
    (withRetry T operation (fun _ => .error e) (fun _ => false)
        retryDelayMs maxAttempts).sleeps
      = (List.range maxAttempts).map
          (fun k => (retryDelayMs * 2 ^ (k + 1)) % 2 ^ 64) := by
  obtain ⟨m, rfl⟩ : ∃ m, maxAttempts = m + 1 := ⟨maxAttempts - 1, by omega⟩
  simp only [withRetry, withRetryGo, Bool.false_eq_true, if_false, he,
    if_true]
  rw [withRetryGo_const_retryable T operation retryDelayMs e he m 1]
  rw [List.range_succ_eq_map, List.map_cons, List.map_map]
  congr 1
  refine List.map_congr_left ?_
  intro k _
  simp only [Function.comp_apply]
  congr 3
  omega

/-- Witness for `withRetry_backoff_sleeps`: two timeout failures with
`retry_delay_ms = 100` sleep 200 ms then 400 ms. -/
theorem withRetry_backoff_sleeps_witness :
    (withRetry Unit "get_block" (fun _ => .error .timeout) (fun _ => false)
        100 2).sleeps
      = (List.range 2).map (fun k => (100 * 2 ^ (k + 1)) % 2 ^ 64) :=
  withRetry_backoff_sleeps Unit "get_block" 100 2 .timeout rfl (by omega)

/-- C6 counterexample: with `retry_delay_ms = 100` and a budget of 10
attempts, the last backoff sleep is 102 400 ms, which exceeds
`max_delay + base_delay = 10 000 + 100` ms (the repository's configured
exponential-backoff window), refuting the claimed
`min(max_delay, base_delay * 2^k) + jitter` bound. -/
theorem withRetry_backoff_uncapped_cex :
    (withRetry Unit "get_block" (fun _ => .error .timeout) (fun _ => false)
        100 10).sleeps.getLast? = some 102400
    ∧ ¬ (102400 : Nat) ≤ 10000 + 100 := by
  refine ⟨rfl, by omega⟩

/-- C4 (amended): `record_success(i, r, b)` on an in-range index increments
`successful_requests`, adds `b` to `total_bytes_transferred`, sets
`last_success = now`, and updates the average to
`(avg * (S + F) + r) / (S + F + 1)` where `S`, `F` are the prior success
and failure counts — the denominator counts failed requests too, so the
result is the running mean over successful attempts only when `F = 0`;
`record_failure` increments `failed_requests`, sets `last_failure`, and
leaves `avg_response_time_ms` unchanged. -/
theorem recordSuccess_effects (stats : List EndpointStats) (i r b now : Nat)
    (s : EndpointStats) (h : i < stats.length)
    (hs : stats.getD i EndpointStats.default = s) :
    recordSuccess stats i r b now
      = (.ok (), stats.set i
          { s with
            successful_requests := s.successful_requests + 1
            total_bytes_transferred := s.total_bytes_transferred + b
            last_success := some now
            avg_response_time_ms :=
              (s.avg_response_time_ms
                  * ((s.successful_requests + s.failed_requests : Nat) : Rat)
                + (r : Rat))
                / ((s.successful_requests + s.failed_requests + 1 : Nat)
                    : Rat) })
    ∧ recordFailure stats i now
        = (.ok (), stats.set i
            { s with
              failed_requests := s.failed_requests + 1
              last_failure := some now }) := by
  subst hs
  constructor
  · simp only [recordSuccess]
    rw [if_neg (by omega)]
    have h1 : (stats.getD i EndpointStats.default).successful_requests + 1
        + (stats.getD i EndpointStats.default).failed_requests - 1
        = (stats.getD i EndpointStats.default).successful_requests
          + (stats.getD i EndpointStats.default).failed_requests := by omega
    have h2 : (stats.getD i EndpointStats.default).successful_requests + 1
        + (stats.getD i EndpointStats.default).failed_requests
        = (stats.getD i EndpointStats.default).successful_requests
          + (stats.getD i EndpointStats.default).failed_requests + 1 := by
      omega
    simp [h1, h2]
    ring_nf
  · simp only [recordFailure]
    rw [if_neg (by omega)]

/-- Witness for `recordSuccess_effects`: recording a 100 ms success with
7 bytes on a fresh single-endpoint monitor yields one success with
average 100. -/
theorem recordSuccess_effects_witness :
    recordSuccess [EndpointStats.default] 0 100 7 9
      = (.ok (), [⟨1, 0, 100, 0, 7, some 9, none⟩])
    ∧ recordFailure [EndpointStats.default] 0 9
        = (.ok (), [⟨0, 1, 0, 0, 0, none, some 9⟩]) := by
  have h := recordSuccess_effects [EndpointStats.default] 0 100 7 9
      EndpointStats.default (by decide) rfl
  refine ⟨?_, ?_⟩
  · rw [h.1]
    simp [EndpointStats.default]
  · rw [h.2]
    rfl

/-- C4 counterexample: after one failure, recording a single success with
response time 100 ms yields `avg_response_time_ms = 50`, not the
success-only running mean 100 — the failure entered the denominator. -/
theorem recordSuccess_avg_denominator_cex :
    ((recordSuccess (recordFailure [EndpointStats.default] 0 5).2
          0 100 0 7).2.getD 0 EndpointStats.default).avg_response_time_ms
        = 50
    ∧ ((50 : Rat) ≠ 100) := by
  constructor
  · simp [recordSuccess, recordFailure, EndpointStats.default]
    norm_num
  · norm_num

/-- C5 (amended): the health score of `src/core/health.rs` follows the
spec formula but with a 60-second staleness window (strict comparison)
in place of the claimed 30-second default freshness window, and with the
most recent successful response time in the latency term (the record
keeps no running average); an endpoint with no recorded attempts scores
exactly 1. -/
theorem health_score_characterization (e : EndpointHealth) (now : Nat)
    (url : String) :
    e.health_score now = claimedHealthScoreW 60000 e now
    ∧ (EndpointHealth.new url).health_score now = 1 :=
  ⟨rfl, rfl⟩

/-- C5 counterexample: an endpoint with one success (0 ms) whose
`last_success` is 45 s old scores 1000 in the code (45 s < 60 s, factor
1.0) but 500 under the claimed formula with `W = 30` s (staleness 0.5). -/
theorem health_score_window_cex :
    ((EndpointHealth.new "a").record_success 0 0).health_score 45000 = 1000
    ∧ claimedHealthScoreW 30000
        ((EndpointHealth.new "a").record_success 0 0) 45000 = 500
    ∧ ((1000 : Rat) ≠ 500) := by
  refine ⟨?_, ?_, by norm_num⟩
  · simp [EndpointHealth.health_score, EndpointHealth.record_success,
      EndpointHealth.new]
  · simp [claimedHealthScoreW, EndpointHealth.record_success,
      EndpointHealth.new]
    norm_num

/-- Fold invariant of the `max_by` reduction: the result is the accumulator
or a list element, its score dominates the accumulator and every element,
and among equal maxima the later element wins (not needed for the bound). -/
theorem foldl_maxByScoreStep_spec (now : Nat) :
    ∀ (xs : List EndpointHealth) (acc : EndpointHealth),
      (xs.foldl (maxByScoreStep now) acc = acc
          ∨ xs.foldl (maxByScoreStep now) acc ∈ xs)
      ∧ acc.health_score now
          ≤ (xs.foldl (maxByScoreStep now) acc).health_score now
      ∧ ∀ e ∈ xs, e.health_score now
          ≤ (xs.foldl (maxByScoreStep now) acc).health_score now := by
  intro xs
  induction xs with
  | nil => intro acc; exact ⟨Or.inl rfl, le_refl _, by simp⟩
  | cons x rest ih =>
    intro acc
    simp only [List.foldl_cons]
    by_cases hlt : x.health_score now < acc.health_score now
    · have hstep : maxByScoreStep now acc x = acc := by
        simp [maxByScoreStep, hlt]
      rw [hstep]
      obtain ⟨hmem, hacc, hall⟩ := ih acc
      refine ⟨?_, hacc, ?_⟩
      · rcases hmem with h1 | h2
        · exact Or.inl h1
        · exact Or.inr (List.mem_cons_of_mem x h2)
      · intro e he
        rcases List.mem_cons.mp he with rfl | hrest
        · exact le_trans (le_of_lt hlt) hacc
        · exact hall e hrest
    · have hstep : maxByScoreStep now acc x = x := by
        simp [maxByScoreStep, hlt]
      rw [hstep]
      obtain ⟨hmem, hx, hall⟩ := ih x
      refine ⟨?_, ?_, ?_⟩
      · rcases hmem with h1 | h2
        · exact Or.inr (by simp [h1])
        · exact Or.inr (List.mem_cons_of_mem x h2)
      · exact le_trans (le_of_not_lt hlt) hx
      · intro e he
        rcases List.mem_cons.mp he with rfl | hrest
        · exact hx
        · exact hall e hrest

/-- C7 (amended): the selector filters by `should_retry` — healthy OR
fewer than 3 recorded errors — so an unhealthy endpoint can be selected;
among eligible endpoints it returns one of maximal health score (weight
plays no role, and among equal scores the last index wins); `none` is
returned exactly when no endpoint passes `should_retry`. -/
theorem getHealthiestEndpoint_spec (now : Nat)
    (endpoints : List EndpointHealth) :
    (getHealthiestEndpoint now endpoints = none →
      ∀ e ∈ endpoints, e.should_retry = false)
    ∧ (∀ u, getHealthiestEndpoint now endpoints = some u →
        ∃ e ∈ endpoints, e.url = u ∧ e.should_retry = true
          ∧ ∀ e2 ∈ endpoints, e2.should_retry = true →
              e2.health_score now ≤ e.health_score now) := by
  constructor
  · intro hnone e he
    unfold getHealthiestEndpoint at hnone
    cases hf : endpoints.filter EndpointHealth.should_retry with
    | nil =>
      have := List.filter_eq_nil_iff.mp hf e he
      simpa using this
    | cons x xs => rw [hf] at hnone; cases hnone
  · intro u hu
    unfold getHealthiestEndpoint at hu
    cases hf : endpoints.filter EndpointHealth.should_retry with
    | nil => rw [hf] at hu; cases hu
    | cons x xs =>
      rw [hf] at hu
      obtain ⟨hmem, hx, hall⟩ := foldl_maxByScoreStep_spec now xs x
      have hin : xs.foldl (maxByScoreStep now) x ∈ x :: xs := by
        rcases hmem with h1 | h2
        · simp [h1]
        · exact List.mem_cons_of_mem x h2
      have hinf : xs.foldl (maxByScoreStep now) x
          ∈ endpoints.filter EndpointHealth.should_retry := by
        rw [hf]; exact hin
      refine ⟨xs.foldl (maxByScoreStep now) x,
        (List.mem_filter.mp hinf).1, ?_, (List.mem_filter.mp hinf).2, ?_⟩
      · exact Option.some.inj hu
      · intro e2 he2 hr2
        have he2f : e2 ∈ x :: xs := by
          rw [← hf]; exact List.mem_filter.mpr ⟨he2, hr2⟩
        rcases List.mem_cons.mp he2f with rfl | hrest
        · exact hx
        · exact hall e2 hrest

/-- Witness for `getHealthiestEndpoint_spec`: with a single fresh endpoint
the selector returns it, eligible and score-maximal. -/
theorem getHealthiestEndpoint_spec_witness :
    ∃ e ∈ [EndpointHealth.new "a"], e.url = "a"
      ∧ e.should_retry = true
      ∧ ∀ e2 ∈ [EndpointHealth.new "a"], e2.should_retry = true →
          e2.health_score 0 ≤ e.health_score 0 :=
  (getHealthiestEndpoint_spec 0 [EndpointHealth.new "a"]).2 "a" rfl

/-- C7 counterexample: endpoint "a" has recorded a success then an error,
so its stored `is_healthy` flag is `false`, yet with a fresh endpoint "b"
alongside, the selector returns "a" (its score 500 beats the no-attempt
score 1) — an unhealthy endpoint is selected.  Moreover two score-tied
fresh endpoints resolve to the *last* one ("b"), not the first as the
weight-then-lowest-index rule would require. -/
theorem getHealthiestEndpoint_unhealthy_cex :
    (((EndpointHealth.new "a").record_success 0 0).record_error
        "boom").is_healthy = false
    ∧ getHealthiestEndpoint 0
        [((EndpointHealth.new "a").record_success 0 0).record_error "boom",
          EndpointHealth.new "b"] = some "a"
    ∧ getHealthiestEndpoint 0
        [EndpointHealth.new "a", EndpointHealth.new "b"] = some "b" := by
  refine ⟨rfl, ?_, ?_⟩
  · simp [getHealthiestEndpoint, EndpointHealth.should_retry,
      EndpointHealth.record_success, EndpointHealth.record_error,
      EndpointHealth.new, maxByScoreStep, EndpointHealth.health_score]
    norm_num
  · simp [getHealthiestEndpoint, EndpointHealth.should_retry,
      EndpointHealth.new, maxByScoreStep, EndpointHealth.health_score]

/-- C8 (confirmed): `record_success` and `record_failure` on an
out-of-range index return `InvalidEndpoint(i)` and leave the whole stats
vector verbatim unchanged (the guard returns before any mutation); on an
in-range index they never fail. -/
theorem record_invalid_endpoint_frame (stats : List EndpointStats)
    (i r b now : Nat) :
    (stats.length ≤ i →
      recordSuccess stats i r b now
          = (.error (.invalidEndpoint i), stats)
      ∧ recordFailure stats i now = (.error (.invalidEndpoint i), stats))
    ∧ (i < stats.length →
      (recordSuccess stats i r b now).1 = .ok ()
      ∧ (recordFailure stats i now).1 = .ok ()) := by
  constructor
  · intro h
    constructor
    · simp only [recordSuccess]
      rw [if_pos h]
    · simp only [recordFailure]
      rw [if_pos h]
  · intro h
    constructor
    · simp only [recordSuccess]
      rw [if_neg (by omega)]
    · simp only [recordFailure]
      rw [if_neg (by omega)]

/-- Witness for `record_invalid_endpoint_frame`: on a one-endpoint monitor,
index 5 errors with `InvalidEndpoint 5` leaving the stats unchanged, and
index 0 succeeds. -/
theorem record_invalid_endpoint_frame_witness :
    (recordSuccess [EndpointStats.default] 5 1 2 3
        = (.error (.invalidEndpoint 5), [EndpointStats.default]))
    ∧ (recordFailure [EndpointStats.default] 5 3
        = (.error (.invalidEndpoint 5), [EndpointStats.default]))
    ∧ (recordSuccess [EndpointStats.default] 0 1 2 3).1 = .ok ()
    ∧ (recordFailure [EndpointStats.default] 0 3).1 = .ok () :=
  ⟨((record_invalid_endpoint_frame [EndpointStats.default] 5 1 2 3).1
      (by decide)).1,
    ((record_invalid_endpoint_frame [EndpointStats.default] 5 1 2 3).1
      (by decide)).2,
    ((record_invalid_endpoint_frame [EndpointStats.default] 0 1 2 3).2
      (by decide)).1,
    ((record_invalid_endpoint_frame [EndpointStats.default] 0 1 2 3).2
      (by decide)).2⟩

/-- C9 (confirmed): `RateLimiter::new` returns `InvalidConfig` exactly when
`max_rps = 0` or `burst_size = 0`, and for any configuration with both at
least 1 it succeeds with a limiter reporting back exactly the configured
`max_rps` and `burst_size`. -/
theorem rateLimiterNew_invalid_config_iff (config : RateLimitConfig) :
    ((∃ msg, rateLimiterNew config = .error (.invalidConfig msg))
      ↔ (config.max_rps = 0 ∨ config.burst_size = 0))
    ∧ (1 ≤ config.max_rps → 1 ≤ config.burst_size →
        rateLimiterNew config = .ok ⟨config.max_rps, config.burst_size⟩) := by
  constructor
  · constructor
    · intro ⟨msg, hmsg⟩
      by_cases h1 : config.max_rps = 0
      · exact Or.inl h1
      · by_cases h2 : config.burst_size = 0
        · exact Or.inr h2
        · simp [rateLimiterNew, h1, h2, quotaWithPeriod] at hmsg
    · intro h
      rcases h with h1 | h2
      · exact ⟨"max_rps must be greater than 0", by simp [rateLimiterNew, h1]⟩
      · by_cases h1 : config.max_rps = 0
        · exact ⟨"max_rps must be greater than 0",
            by simp [rateLimiterNew, h1]⟩
        · exact ⟨"burst_size must be greater than 0",
            by simp [rateLimiterNew, h1, h2]⟩
  · intro h1 h2
    have hn1 : config.max_rps ≠ 0 := by omega
    have hn2 : config.burst_size ≠ 0 := by omega
    simp [rateLimiterNew, hn1, hn2, quotaWithPeriod]

/-- Witness for `rateLimiterNew_invalid_config_iff`: zero `max_rps` is
rejected; `max_rps = 5, burst_size = 7` is accepted and reported back. -/
theorem rateLimiterNew_invalid_config_iff_witness :
    (∃ msg, rateLimiterNew ⟨0, 5⟩ = .error (.invalidConfig msg))
    ∧ rateLimiterNew ⟨5, 7⟩ = .ok ⟨5, 7⟩ :=
  ⟨(rateLimiterNew_invalid_config_iff ⟨0, 5⟩).1.mpr (Or.inl rfl),
    (rateLimiterNew_invalid_config_iff ⟨5, 7⟩).2 (by decide) (by decide)⟩

/-- Frame helper: `updateFirst` is the identity when no element matches. -/
theorem updateFirst_no_match (p : EndpointHealth → Bool)
    (f : EndpointHealth → EndpointHealth) :
    ∀ l : List EndpointHealth, (∀ x ∈ l, p x = false) →
      updateFirst p f l = l := by
  intro l
  induction l with
  | nil => intro _; rfl
  | cons x rest ih =>
    intro h
    have hx := h x (List.mem_cons_self x rest)
    simp only [updateFirst, hx]
    rw [if_neg (by simp [hx])]
    rw [ih (fun y hy => h y (List.mem_cons_of_mem x hy))]

/-- C10 (confirmed): recording a success or an error against a URL that
matches no configured endpoint is a silent no-op — the functions return
without signalling any error and the health state of every endpoint is
unchanged. -/
theorem recordByUrl_unknown_noop (endpoints : List EndpointHealth)
    (url : String) (responseTime now : Nat) (errMsg : String)
    (h : ∀ e ∈ endpoints, e.url ≠ url) :
    recordSuccessByUrl endpoints url responseTime now = endpoints
    ∧ recordErrorByUrl endpoints url errMsg = endpoints := by
  constructor
  · exact updateFirst_no_match _ _ endpoints
      (fun e he => by simp [h e he])
  · exact updateFirst_no_match _ _ endpoints
      (fun e he => by simp [h e he])

/-- Witness for `recordByUrl_unknown_noop`: recording against the unknown
URL "b" leaves a one-endpoint ("a") monitor unchanged. -/
theorem recordByUrl_unknown_noop_witness :
    recordSuccessByUrl [EndpointHealth.new "a"] "b" 1 2
        = [EndpointHealth.new "a"]
    ∧ recordErrorByUrl [EndpointHealth.new "a"] "b" "x"
        = [EndpointHealth.new "a"] :=
  recordByUrl_unknown_noop [EndpointHealth.new "a"] "b" 1 2 "x"
    (by intro e he; simp at he; simp [he, EndpointHealth.new])

end SolanaAnalytics
